import Mathlib

/-
Shallow embedding of the rust-timerfd crate, files src/structs.rs and
src/lib.rs, on a 64-bit Linux target: libc time_t and c_long are 64-bit
signed integers, modelled as Int with explicit wrapping where the Rust
code casts; the Rust std Duration is a pair of a u64 seconds count and a
sub-second nanosecond count below 10^9, modelled as a pair of Nat.
Fallible or panicking paths are modelled with Option (none is the panic
or the propagated error, as documented at each definition). Syscalls are
external: each syscall result is passed in as an explicit outcome value,
and the embedded function computes what the Rust code does with it.
-/

/-- Rust std Duration: secs is the u64 seconds count (invariant: below
2^64), nanos the u32 sub-second nanosecond count (invariant: below 10^9).
The invariants are carried as hypotheses where needed. -/
structure Duration where
  secs : Nat
  nanos : Nat
  deriving DecidableEq, Repr

/-- Rust cast u64 to i64 (two's complement wrap), as in d.as_secs() as
libc::time_t in structs.rs line 34. -/
def u64_cast_i64 (n : Nat) : Int :=
  if n < 2 ^ 63 then (n : Int) else (n : Int) - 2 ^ 64

/-- Rust cast i64 to u64 (two's complement wrap), as in ts.tv_sec as u64
in structs.rs line 42. -/
def i64_cast_u64 (i : Int) : Nat :=
  (i % 2 ^ 64).toNat

/-- Rust TryInto conversion from i64 (libc::c_long) to u32: succeeds
exactly when the value is non-negative and at most u32::MAX = 4294967295,
as used on ts.tv_nsec in structs.rs line 42. -/
def tryInto_u32 (i : Int) : Option Nat :=
  if 0 ≤ i ∧ i ≤ 4294967295 then some i.toNat else none

/-- Rust std Duration::new: carries excess nanoseconds into the seconds
field; none models the panic when the carried seconds count overflows
u64. -/
def Duration.new (secs nanos : Nat) : Option Duration :=
  if secs + nanos / 1000000000 < 2 ^ 64 then
    some ⟨secs + nanos / 1000000000, nanos % 1000000000⟩
  else
    none

/-- The timespec struct of src/structs.rs lines 11 to 14: tv_sec is a
libc::time_t, tv_nsec a libc::c_long, both 64-bit signed. -/
structure timespec where
  tv_sec : Int
  tv_nsec : Int
  deriving DecidableEq, Repr

/-- The TS_NULL constant of src/structs.rs line 29. -/
def TS_NULL : timespec := ⟨0, 0⟩

/-- The itimerspec struct of src/structs.rs lines 18 to 21, field order as
in the source: interval first, then value. -/
structure itimerspec where
  it_interval : timespec
  it_value : timespec
  deriving DecidableEq, Repr

/-- itimerspec::null of src/structs.rs lines 24 to 26. -/
def itimerspec.null : itimerspec := ⟨TS_NULL, TS_NULL⟩

/-- From Duration for timespec, src/structs.rs lines 31 to 38. -/
def timespec_from_duration (d : Duration) : timespec :=
  ⟨u64_cast_i64 d.secs, (d.nanos : Int)⟩

/-- From timespec for Duration, src/structs.rs lines 40 to 45: tv_nsec
goes through try_into to u32 and the expect call panics (none) when that
fails; the result feeds Duration::new together with tv_sec cast to u64. -/
def duration_from_timespec (ts : timespec) : Option Duration :=
  match tryInto_u32 ts.tv_nsec with
  | some n => Duration.new (i64_cast_u64 ts.tv_sec) n
  | none => none

/-- The TimerState enum of src/lib.rs lines 145 to 159. -/
inductive TimerState where
  | Disarmed
  | Oneshot (d : Duration)
  | Periodic (current : Duration) (interval : Duration)
  deriving DecidableEq, Repr

/-- From TimerState for itimerspec (lowering), src/structs.rs lines 48
to 65. -/
def itimerspec_from_TimerState : TimerState → itimerspec
  | .Disarmed => { it_value := TS_NULL, it_interval := TS_NULL }
  | .Oneshot d => { it_value := timespec_from_duration d, it_interval := TS_NULL }
  | .Periodic current interval =>
      { it_value := timespec_from_duration current,
        it_interval := timespec_from_duration interval }

/-- From itimerspec for TimerState (lifting), src/structs.rs lines 67
to 84: the match tests it_value against the TS_NULL pattern first, then
it_interval; none models a panic inside the Duration conversions. -/
def TimerState_from_itimerspec (its : itimerspec) : Option TimerState :=
  if its.it_value = TS_NULL then
    some .Disarmed
  else if its.it_interval = TS_NULL then
    (duration_from_timespec its.it_value).map TimerState.Oneshot
  else
    match duration_from_timespec its.it_value,
          duration_from_timespec its.it_interval with
    | some c, some i => some (.Periodic c i)
    | _, _ => none

/-- The ClockId enum of src/lib.rs lines 63 to 90. -/
inductive ClockId where
  | Realtime
  | RealtimeAlarm
  | Monotonic
  | Boottime
  | BoottimeAlarm
  deriving DecidableEq, Repr

/-- The SetTimeFlags enum of src/lib.rs lines 115 to 135. -/
inductive SetTimeFlags where
  | Default
  | Abstime
  | TimerCancelOnSet
  deriving DecidableEq, Repr

/-- Platform constant TFD_NONBLOCK from libc (equals O_NONBLOCK, octal
04000). -/
def TFD_NONBLOCK : Nat := 2048

/-- Platform constant TFD_CLOEXEC from libc (equals O_CLOEXEC, octal
02000000). -/
def TFD_CLOEXEC : Nat := 524288

/-- Platform constant TFD_TIMER_ABSTIME from libc (bit 0). -/
def TFD_TIMER_ABSTIME : Nat := 1

/-- The constant of src/lib.rs line 138: static TFD_TIMER_CANCEL_ON_SET,
octal value 0o0000002. -/
def TFD_TIMER_CANCEL_ON_SET : Nat := 2

/-- Lowering of SetTimeFlags to the flag word passed to timerfd_settime,
the match at src/lib.rs lines 211 to 215. -/
def settime_flags : SetTimeFlags → Nat
  | .Default => 0
  | .Abstime => TFD_TIMER_ABSTIME
  | .TimerCancelOnSet => TFD_TIMER_ABSTIME ||| TFD_TIMER_CANCEL_ON_SET

/-- The TimerFd tuple struct of src/lib.rs line 166: it holds exactly one
raw file descriptor. -/
structure TimerFd where
  fd : Int
  deriving DecidableEq, Repr

/-- neg_is_err of src/lib.rs lines 168 to 174: non-negative syscall
returns are Ok, negative ones become Err carrying the OS error (modelled
as none). -/
def neg_is_err (i : Int) : Option Int :=
  if 0 ≤ i then some i else none

/-- The flag word new_custom builds for timerfd_create, src/lib.rs lines
190 to 196. -/
def create_flags (nonblocking cloexec : Bool) : Nat :=
  (if nonblocking then TFD_NONBLOCK else 0) ||| (if cloexec then TFD_CLOEXEC else 0)

/-- TimerFd::new_custom, src/lib.rs lines 189 to 200: sysfd is the return
value of the external timerfd_create syscall; a negative return is
propagated as an error (none), otherwise the descriptor is stored in the
new handle. -/
def TimerFd.new_custom (clock : ClockId) (nonblocking cloexec : Bool)
    (sysfd : Int) : Option TimerFd :=
  let _flags := create_flags nonblocking cloexec
  let _clock := clock
  match neg_is_err sysfd with
  | some fd => some ⟨fd⟩
  | none => none

/-- TimerFd::from_raw_fd, src/lib.rs lines 281 to 285: adopts the given
descriptor unchecked. -/
def TimerFd.from_raw_fd (fd : Int) : TimerFd := ⟨fd⟩

/-- AsRawFd::as_raw_fd for TimerFd, src/lib.rs lines 275 to 279. -/
def TimerFd.as_raw_fd (t : TimerFd) : Int := t.fd

/-- Classification of the io error kind produced by last_os_error when a
read on the descriptor fails: would-block (EAGAIN), interrupted (EINTR),
the distinct clock-canceled error (ECANCELED, which maps to neither of the
first two kinds), or any other error. -/
inductive IoErrorKind where
  | wouldBlock
  | interrupted
  | canceled
  | other
  deriving DecidableEq, Repr

/-- Outcome of one invocation of the external libc::read call inside
try_read, src/lib.rs line 242: res is the byte count returned (or -1 on
error), buffer the u64 value left in the 8-byte buffer (meaningful when
res = 8), errKind the kind of last_os_error (meaningful when res = -1). -/
structure RawOutcome where
  res : Int
  buffer : Nat
  errKind : IoErrorKind
  deriving DecidableEq, Repr

/-- Result of one call to try_read: Ok count, Err of some kind, or a
panic (the failed assert, or the unreachable arm). -/
inductive TryReadResult where
  | ok (n : Nat)
  | err (k : IoErrorKind)
  | panicked
  deriving DecidableEq, Repr

/-- TimerFd::try_read, src/lib.rs lines 236 to 254: on res = 8 the assert
buffer != 0 must pass (else panic) and the buffer is returned; on res = -1
the OS error is returned; any other res hits the unreachable arm and
panics. -/
def try_read_result (r : RawOutcome) : TryReadResult :=
  if r.res = 8 then
    if r.buffer ≠ 0 then .ok r.buffer else .panicked
  else if r.res = -1 then
    .err r.errKind
  else
    .panicked

/-- try_read as a method: the body never writes the descriptor field, so
the handle comes back unchanged. -/
def TimerFd.try_read (t : TimerFd) (r : RawOutcome) : TryReadResult × TimerFd :=
  (try_read_result r, t)

/-- Result of TimerFd::read: a returned count, a panic, or still looping
(the supplied outcome list was exhausted while every entry kept the loop
going). -/
inductive ReadRet where
  | val (n : Nat)
  | panicked
  | looping
  deriving DecidableEq, Repr

/-- The loop of TimerFd::read, src/lib.rs lines 261 to 272, driven by the
list of successive libc::read outcomes: Ok n returns n, a would-block
error returns 0, an interrupted error retries with the remaining
outcomes, and any other error panics. -/
def read_loop : List RawOutcome → ReadRet
  | [] => .looping
  | r :: rs =>
    match try_read_result r with
    | .ok n => .val n
    | .panicked => .panicked
    | .err k =>
      match k with
      | .wouldBlock => .val 0
      | .interrupted => read_loop rs
      | _ => .panicked

/-- read as a method: the body only calls try_read, which never writes
the descriptor field. -/
def TimerFd.read (t : TimerFd) (rs : List RawOutcome) : ReadRet × TimerFd :=
  (read_loop rs, t)

/-- Outcome of the external timerfd_settime syscall in set_state: ret is
its return value, old the itimerspec it wrote through the old_value
pointer (meaningful when ret is non-negative). -/
structure SettimeOutcome where
  ret : Int
  old : itimerspec
  deriving DecidableEq, Repr

/-- Outcome of the external timerfd_gettime syscall in get_state: ret is
its return value, curr the itimerspec it wrote through the curr_value
pointer (meaningful when ret is non-negative). -/
structure GettimeOutcome where
  ret : Int
  curr : itimerspec
  deriving DecidableEq, Repr

/-- Result of set_state or get_state: the lifted TimerState, or a panic
(the expect on a failed syscall, or a panic inside the lifting). -/
inductive StateResult where
  | ok (s : TimerState)
  | panicked
  deriving DecidableEq, Repr

/-- The arguments set_state passes to timerfd_settime: the lowered flag
word and the lowered new itimerspec. -/
structure SettimeCall where
  flags : Nat
  new : itimerspec
  deriving DecidableEq, Repr

/-- TimerFd::set_state, src/lib.rs lines 210 to 221: lowers the flags and
the state, issues the syscall (whose outcome is supplied), and on success
lifts the old value; a negative syscall return hits the expect and
panics. The body never writes the descriptor field, so the handle comes
back unchanged. -/
def TimerFd.set_state (t : TimerFd) (state : TimerState)
    (sflags : SetTimeFlags) (sys : SettimeOutcome) :
    SettimeCall × StateResult × TimerFd :=
  (⟨settime_flags sflags, itimerspec_from_TimerState state⟩,
   match neg_is_err sys.ret with
   | some _ =>
     match TimerState_from_itimerspec sys.old with
     | some s => StateResult.ok s
     | none => StateResult.panicked
   | none => StateResult.panicked,
   t)

/-- TimerFd::get_state, src/lib.rs lines 224 to 229: issues the query
syscall (whose outcome is supplied) and lifts the result; a negative
syscall return hits the expect and panics. It takes the handle by
immutable borrow. -/
def TimerFd.get_state (t : TimerFd) (sys : GettimeOutcome) : StateResult :=
  let _fd := t.fd
  match neg_is_err sys.ret with
  | some _ =>
    match TimerState_from_itimerspec sys.curr with
    | some s => StateResult.ok s
    | none => StateResult.panicked
  | none => StateResult.panicked

/-- One operation on an existing TimerFd handle, with the outcomes of the
external syscalls it performs supplied as data. -/
inductive Op where
  | set_state (state : TimerState) (sflags : SetTimeFlags) (sys : SettimeOutcome)
  | get_state (sys : GettimeOutcome)
  | try_read (r : RawOutcome)
  | read (rs : List RawOutcome)
  | as_raw_fd
  deriving Repr

/-- Applies one operation to the handle and keeps the handle the methods
hand back (get_state and as_raw_fd take the handle by immutable borrow
and cannot change it). -/
def step (t : TimerFd) : Op → TimerFd
  | .set_state state sflags sys => (t.set_state state sflags sys).2.2
  | .get_state _ => t
  | .try_read r => (t.try_read r).2
  | .read rs => (t.read rs).2
  | .as_raw_fd => t

/-- Duration whose seconds count fits the signed 64-bit native time field
and whose nanosecond field satisfies the Rust Duration invariant. -/
def Duration.inRange (d : Duration) : Prop :=
  d.secs < 2 ^ 63 ∧ d.nanos < 1000000000

/-- TimerState values for which the lowering-then-lifting round trip can
hold: zero value durations lower to the TS_NULL pattern and lift to
Disarmed, and a zero Periodic interval lifts to Oneshot, so those are
excluded. -/
def TimerState.roundtrip_representable : TimerState → Prop
  | .Disarmed => True
  | .Oneshot d => d.inRange ∧ d ≠ ⟨0, 0⟩
  | .Periodic c i => c.inRange ∧ i.inRange ∧ c ≠ ⟨0, 0⟩ ∧ i ≠ ⟨0, 0⟩

/-- Helper: the u64 to i64 cast is the identity below 2 to the 63. -/
theorem u64_cast_i64_small (n : Nat) (h : n < 2 ^ 63) : u64_cast_i64 n = (n : Int) := by
  unfold u64_cast_i64
  rw [if_pos h]

/-- Helper: a single Duration with in-range fields survives lowering to
timespec and lifting back. -/
theorem duration_roundtrip (d : Duration) (h1 : d.secs < 2 ^ 63)
    (h2 : d.nanos < 1000000000) :
    duration_from_timespec (timespec_from_duration d) = some d := by
  have e2 : tryInto_u32 ((d.nanos : Nat) : Int) = some d.nanos := by
    unfold tryInto_u32
    rw [if_pos (by constructor <;> omega)]
    simp
  have e3 : i64_cast_u64 ((d.secs : Nat) : Int) = d.secs := by
    unfold i64_cast_u64
    rw [Int.emod_eq_of_lt (by omega) (by push_cast; omega)]
    simp
  have e4 : Duration.new d.secs d.nanos = some d := by
    unfold Duration.new
    rw [if_pos (by omega)]
    have hd : d.nanos / 1000000000 = 0 := Nat.div_eq_of_lt h2
    have hm : d.nanos % 1000000000 = d.nanos := Nat.mod_eq_of_lt h2
    simp [hd, hm]
  simp only [duration_from_timespec, timespec_from_duration,
    u64_cast_i64_small d.secs h1, e2, e3, e4]

/-- Helper: lowering a nonzero in-range Duration never produces the
TS_NULL timespec. -/
theorem timespec_from_duration_ne_null (d : Duration) (h1 : d.secs < 2 ^ 63)
    (hne : d ≠ ⟨0, 0⟩) : timespec_from_duration d ≠ TS_NULL := by
  intro hEq
  apply hne
  unfold timespec_from_duration at hEq
  rw [u64_cast_i64_small d.secs h1] at hEq
  rw [TS_NULL] at hEq
  rw [timespec.mk.injEq] at hEq
  obtain ⟨hs, hn⟩ := hEq
  obtain ⟨s, n⟩ := d
  simp at hs hn
  simp [hs, hn]

/-- Claim C1, counterexample: the claim quantifies over Oneshot with any
non-negative in-range duration, including the zero duration, but lowering
Oneshot of the zero duration gives the all-zero itimerspec, which lifts
back to Disarmed, not to the original Oneshot value. -/
theorem state_roundtrip_cx :
    TimerState_from_itimerspec (itimerspec_from_TimerState (TimerState.Oneshot ⟨0, 0⟩)) =
      some TimerState.Disarmed ∧
    TimerState_from_itimerspec (itimerspec_from_TimerState (TimerState.Oneshot ⟨0, 0⟩)) ≠
      some (TimerState.Oneshot ⟨0, 0⟩) := by
  decide

/-- Claim C1, amended: lowering a TimerState to the native itimerspec and
lifting the result back reproduces the original exactly for Disarmed, for
Oneshot with a nonzero in-range duration, and for Periodic with nonzero
in-range current and interval; the zero-duration cases collapse to
Disarmed (or Oneshot) by the kernel zero-value convention. -/
theorem state_roundtrip (s : TimerState) (h : s.roundtrip_representable) :
    TimerState_from_itimerspec (itimerspec_from_TimerState s) = some s := by
  cases s with
  | Disarmed => rfl
  | Oneshot d =>
    obtain ⟨⟨h1, h2⟩, hne⟩ := h
    simp only [itimerspec_from_TimerState, TimerState_from_itimerspec]
    rw [if_neg (timespec_from_duration_ne_null d h1 hne), if_pos trivial,
      duration_roundtrip d h1 h2]
    rfl
  | Periodic c i =>
    obtain ⟨⟨hc1, hc2⟩, ⟨hi1, hi2⟩, hcne, hine⟩ := h
    simp only [itimerspec_from_TimerState, TimerState_from_itimerspec]
    rw [if_neg (timespec_from_duration_ne_null c hc1 hcne),
      if_neg (timespec_from_duration_ne_null i hi1 hine),
      duration_roundtrip c hc1 hc2, duration_roundtrip i hi1 hi2]

/-- Claim C1, witness: the amended round trip evaluated at a concrete
nonzero Oneshot value. -/
theorem state_roundtrip_witness :
    TimerState_from_itimerspec (itimerspec_from_TimerState (TimerState.Oneshot ⟨1, 500⟩)) =
      some (TimerState.Oneshot ⟨1, 500⟩) :=
  state_roundtrip (TimerState.Oneshot ⟨1, 500⟩) ⟨⟨by decide, by decide⟩, by decide⟩

/-- Claim C2: lifting any native itimerspec whose value component is the
zero timespec yields Disarmed, whatever the interval component holds, and
the lifting cannot fail there since the interval is never converted. -/
theorem zero_value_lifts_disarmed (iv : timespec) :
    TimerState_from_itimerspec { it_interval := iv, it_value := TS_NULL } =
      some TimerState.Disarmed := by
  simp [TimerState_from_itimerspec]

/-- Claim C3: when the underlying read reports would-block, read returns
the count zero rather than an error, and when it reports interruption by
a signal, read retries transparently, so the interruption is never
surfaced to the caller. -/
theorem read_wouldblock_zero_interrupted_retry :
    (∀ (t : TimerFd) (r : RawOutcome) (rs : List RawOutcome),
        r.res = -1 → r.errKind = IoErrorKind.wouldBlock →
        (t.read (r :: rs)).1 = ReadRet.val 0) ∧
    (∀ (t : TimerFd) (r : RawOutcome) (rs : List RawOutcome),
        r.res = -1 → r.errKind = IoErrorKind.interrupted →
        (t.read (r :: rs)).1 = (t.read rs).1) := by
  constructor
  · intro t r rs h1 h2
    simp [TimerFd.read, read_loop, try_read_result, h1, h2]
  · intro t r rs h1 h2
    simp [TimerFd.read, read_loop, try_read_result, h1, h2]

/-- Claim C3, witness: concrete would-block and interrupted outcome
lists. -/
theorem read_wouldblock_zero_interrupted_retry_witness :
    (TimerFd.read ⟨1⟩ [⟨-1, 0, IoErrorKind.wouldBlock⟩]).1 = ReadRet.val 0 ∧
    (TimerFd.read ⟨1⟩ [⟨-1, 0, IoErrorKind.interrupted⟩, ⟨8, 3, IoErrorKind.other⟩]).1 =
      (TimerFd.read ⟨1⟩ [⟨8, 3, IoErrorKind.other⟩]).1 :=
  ⟨read_wouldblock_zero_interrupted_retry.1 ⟨1⟩ ⟨-1, 0, IoErrorKind.wouldBlock⟩ [] rfl rfl,
   read_wouldblock_zero_interrupted_retry.2 ⟨1⟩ ⟨-1, 0, IoErrorKind.interrupted⟩
     [⟨8, 3, IoErrorKind.other⟩] rfl rfl⟩

/-- Claim C4, counterexample: with a failing syscall outcome (negative
return), set_state and get_state both end in the expect call, which is a
panic that terminates the process, not a recoverable error returned to the
caller. -/
theorem set_get_state_panic_cx :
    (TimerFd.set_state ⟨3⟩ TimerState.Disarmed SetTimeFlags.Default
        ⟨-1, itimerspec.null⟩).2.1 = StateResult.panicked ∧
    TimerFd.get_state ⟨3⟩ ⟨-1, itimerspec.null⟩ = StateResult.panicked := by
  decide

/-- Claim C4, amended: every OS-level failure (negative syscall return)
of set_state and get_state is escalated to a panic that terminates the
process; neither operation has an error channel in its return type, so no
OS failure reaches the caller as a recoverable error. -/
theorem set_get_state_panic_on_failure :
    (∀ (t : TimerFd) (state : TimerState) (sflags : SetTimeFlags)
        (sys : SettimeOutcome), sys.ret < 0 →
        (t.set_state state sflags sys).2.1 = StateResult.panicked) ∧
    (∀ (t : TimerFd) (sys : GettimeOutcome), sys.ret < 0 →
        t.get_state sys = StateResult.panicked) := by
  constructor
  · intro t state sflags sys h
    have : neg_is_err sys.ret = none := by simp [neg_is_err]; omega
    simp [TimerFd.set_state, this]
  · intro t sys h
    have : neg_is_err sys.ret = none := by simp [neg_is_err]; omega
    simp [TimerFd.get_state, this]

/-- Claim C4, witness: the amended statement at concrete failing
outcomes. -/
theorem set_get_state_panic_on_failure_witness :
    (TimerFd.set_state ⟨4⟩ TimerState.Disarmed SetTimeFlags.Abstime
        ⟨-1, itimerspec.null⟩).2.1 = StateResult.panicked ∧
    TimerFd.get_state ⟨4⟩ ⟨-1, itimerspec.null⟩ = StateResult.panicked :=
  ⟨set_get_state_panic_on_failure.1 ⟨4⟩ TimerState.Disarmed SetTimeFlags.Abstime
      ⟨-1, itimerspec.null⟩ (by decide),
   set_get_state_panic_on_failure.2 ⟨4⟩ ⟨-1, itimerspec.null⟩ (by decide)⟩

/-- Claim C5: any byte count other than 8 that is not the error
indication -1 hits the unreachable arm of try_read and panics; it is never
swallowed or returned as a value. This covers in particular every byte
count other than 0 or 8. -/
theorem try_read_panics_on_other_counts (r : RawOutcome)
    (h8 : r.res ≠ 8) (hm1 : r.res ≠ -1) :
    try_read_result r = TryReadResult.panicked := by
  unfold try_read_result
  rw [if_neg h8, if_neg hm1]

/-- Claim C5, witness: a 3-byte read outcome panics. -/
theorem try_read_panics_on_other_counts_witness :
    try_read_result ⟨3, 0, IoErrorKind.other⟩ = TryReadResult.panicked :=
  try_read_panics_on_other_counts ⟨3, 0, IoErrorKind.other⟩ (by decide) (by decide)

/-- Claim C6, counterexample: on a clock-canceled read error the retrying
read operation hits its catch-all arm and panics, terminating the process
instead of surfacing the error; only try_read returns it to the caller. -/
theorem canceled_read_cx :
    (TimerFd.read ⟨1⟩ [⟨-1, 0, IoErrorKind.canceled⟩]).1 = ReadRet.panicked ∧
    (TimerFd.try_read ⟨1⟩ ⟨-1, 0, IoErrorKind.canceled⟩).1 =
      TryReadResult.err IoErrorKind.canceled := by
  decide

/-- Claim C6, amended: when a read fails with the clock-canceled error,
try_read surfaces it distinctly to the caller as an error value, while the
retrying read wrapper treats it as an unexpected error and panics,
terminating the process rather than surfacing it. -/
theorem canceled_surfaced_by_try_read_panics_read (t : TimerFd) (r : RawOutcome)
    (h1 : r.res = -1) (h2 : r.errKind = IoErrorKind.canceled) :
    (t.try_read r).1 = TryReadResult.err IoErrorKind.canceled ∧
    ∀ rs : List RawOutcome, (t.read (r :: rs)).1 = ReadRet.panicked := by
  constructor
  · simp [TimerFd.try_read, try_read_result, h1, h2]
  · intro rs
    simp [TimerFd.read, read_loop, try_read_result, h1, h2]

/-- Claim C6, witness: the amended statement at a concrete canceled
outcome. -/
theorem canceled_surfaced_by_try_read_panics_read_witness :
    (TimerFd.try_read ⟨2⟩ ⟨-1, 5, IoErrorKind.canceled⟩).1 =
      TryReadResult.err IoErrorKind.canceled ∧
    (TimerFd.read ⟨2⟩ [⟨-1, 5, IoErrorKind.canceled⟩]).1 = ReadRet.panicked :=
  ⟨(canceled_surfaced_by_try_read_panics_read ⟨2⟩ ⟨-1, 5, IoErrorKind.canceled⟩ rfl rfl).1,
   (canceled_surfaced_by_try_read_panics_read ⟨2⟩ ⟨-1, 5, IoErrorKind.canceled⟩ rfl rfl).2 []⟩

/-- Claim C7: under the kernel read contract (an 8-byte read delivers a
nonzero expiration count), try_read returns the buffer as Ok and the
assert on a nonzero buffer never panics. -/
theorem eight_byte_read_nonzero (r : RawOutcome) (h8 : r.res = 8)
    (hk : r.buffer ≠ 0) :
    try_read_result r = TryReadResult.ok r.buffer ∧
    try_read_result r ≠ TryReadResult.panicked := by
  unfold try_read_result
  rw [if_pos h8, if_pos hk]
  exact ⟨rfl, by simp⟩

/-- Claim C7, witness: a concrete 8-byte outcome with count 7. -/
theorem eight_byte_read_nonzero_witness :
    try_read_result ⟨8, 7, IoErrorKind.other⟩ = TryReadResult.ok 7 :=
  (eight_byte_read_nonzero ⟨8, 7, IoErrorKind.other⟩ rfl (by decide)).1

/-- Claim C8, counterexample: a timespec whose nanosecond field is
1500000000, which exceeds one second, is not rejected: the try_into to u32
succeeds and Duration::new silently normalises it to 1 second and
500000000 nanoseconds. -/
theorem nanos_guard_cx :
    duration_from_timespec ⟨0, 1500000000⟩ = some ⟨1, 500000000⟩ ∧
    duration_from_timespec ⟨0, 1500000000⟩ ≠ none := by
  decide

/-- Claim C8, amended: lifting a native timespec to a Duration fails
(panics in the expect on try_into) exactly when the nanosecond field is
negative or exceeds the unsigned 32-bit maximum 4294967295; fields between
one second and that maximum are silently normalised instead. -/
theorem nanos_guard_u32 (ts : timespec)
    (h : ts.tv_nsec < 0 ∨ 4294967295 < ts.tv_nsec) :
    duration_from_timespec ts = none := by
  have : tryInto_u32 ts.tv_nsec = none := by
    unfold tryInto_u32
    rw [if_neg (by omega)]
  simp [duration_from_timespec, this]

/-- Claim C8, witness: a negative field and an over-u32 field both fail. -/
theorem nanos_guard_u32_witness :
    duration_from_timespec ⟨0, -1⟩ = none ∧
    duration_from_timespec ⟨0, 5000000000⟩ = none :=
  ⟨nanos_guard_u32 ⟨0, -1⟩ (by decide),
   nanos_guard_u32 ⟨0, 5000000000⟩ (by decide)⟩

/-- Claim C9: in set_state, Default lowers to the zero flag word, Abstime
lowers to exactly the absolute-time bit, and TimerCancelOnSet lowers to
the cancel bit combined with the absolute-time bit, so TimerCancelOnSet
implies Abstime (the absolute-time bit is contained in its flag word). -/
theorem set_state_flag_lowering :
    (∀ (t : TimerFd) (state : TimerState) (sys : SettimeOutcome),
        (t.set_state state SetTimeFlags.Default sys).1.flags = 0) ∧
    (∀ (t : TimerFd) (state : TimerState) (sys : SettimeOutcome),
        (t.set_state state SetTimeFlags.Abstime sys).1.flags = TFD_TIMER_ABSTIME) ∧
    (∀ (t : TimerFd) (state : TimerState) (sys : SettimeOutcome),
        (t.set_state state SetTimeFlags.TimerCancelOnSet sys).1.flags =
          TFD_TIMER_ABSTIME ||| TFD_TIMER_CANCEL_ON_SET) ∧
    settime_flags SetTimeFlags.TimerCancelOnSet ||| TFD_TIMER_ABSTIME =
      settime_flags SetTimeFlags.TimerCancelOnSet :=
  ⟨fun _ _ _ => rfl, fun _ _ _ => rfl, fun _ _ _ => rfl, by decide⟩

/-- Helper: no single operation changes the stored descriptor. -/
theorem step_fixes_fd (t : TimerFd) (op : Op) : step t op = t := by
  cases op <;> rfl

/-- Helper: no sequence of operations changes the stored descriptor. -/
theorem foldl_step_fixes (t : TimerFd) (ops : List Op) :
    ops.foldl step t = t := by
  induction ops with
  | nil => rfl
  | cons op ops ih => rw [List.foldl_cons, step_fixes_fd, ih]

/-- Claim C10: across any sequence of set_state, get_state, read,
try_read and as_raw_fd operations, the stored raw descriptor never
changes, and as_raw_fd always returns the value established at creation
by new_custom or at adoption by from_raw_fd. -/
theorem fd_never_modified :
    (∀ (t : TimerFd) (ops : List Op),
        TimerFd.as_raw_fd (ops.foldl step t) = TimerFd.as_raw_fd t) ∧
    (∀ (clock : ClockId) (nonblocking cloexec : Bool) (sysfd : Int) (t : TimerFd),
        TimerFd.new_custom clock nonblocking cloexec sysfd = some t →
        ∀ ops : List Op, TimerFd.as_raw_fd (ops.foldl step t) = sysfd) ∧
    (∀ (fd : Int) (ops : List Op),
        TimerFd.as_raw_fd (ops.foldl step (TimerFd.from_raw_fd fd)) = fd) := by
  refine ⟨?_, ?_, ?_⟩
  · intro t ops
    rw [foldl_step_fixes]
  · intro clock nonblocking cloexec sysfd t h ops
    rw [foldl_step_fixes]
    unfold TimerFd.new_custom neg_is_err at h
    by_cases hge : (0 : Int) ≤ sysfd
    · rw [if_pos hge] at h
      simp only [Option.some.injEq] at h
      rw [← h]
      rfl
    · rw [if_neg hge] at h
      exact absurd h (by simp)
  · intro fd ops
    rw [foldl_step_fixes]
    rfl

/-- Claim C10, witness: a handle created from syscall descriptor 5 still
reports descriptor 5 after a concrete sequence of operations. -/
theorem fd_never_modified_witness :
    TimerFd.as_raw_fd
      (List.foldl step ⟨5⟩
        [Op.get_state ⟨0, itimerspec.null⟩, Op.try_read ⟨8, 2, IoErrorKind.other⟩,
         Op.set_state TimerState.Disarmed SetTimeFlags.Default ⟨0, itimerspec.null⟩,
         Op.read [⟨-1, 0, IoErrorKind.wouldBlock⟩], Op.as_raw_fd]) = 5 :=
  fd_never_modified.2.1 ClockId.Monotonic false false 5 ⟨5⟩ (by decide)
    [Op.get_state ⟨0, itimerspec.null⟩, Op.try_read ⟨8, 2, IoErrorKind.other⟩,
     Op.set_state TimerState.Disarmed SetTimeFlags.Default ⟨0, itimerspec.null⟩,
     Op.read [⟨-1, 0, IoErrorKind.wouldBlock⟩], Op.as_raw_fd]
